import Mathlib

/-!
Shallow embedding of the two programs of the `finances` repository:
`portfolio_simulator2.py` (growth-projection callback `update_projection`)
and `vibes_dashboard.py` (VIBES scorer `calculate_vibes` and the Dash
callback `update_dashboard`).  Machine floats are modelled by `ℚ`; the
float NaN that arises from `rolling(5)` on fewer than 5 rows (and its
propagation through arithmetic and comparisons) is modelled by `Option ℚ`
with `none` for NaN.  Python dictionaries holding per-ticker history are
modelled as functions `String → List _` with pointwise update.
-/

namespace Finances

/-! ## portfolio_simulator2.py : update_projection -/

/-- The seven inputs of the `update_projection` Dash callback.  `years` is
the slider value (an integer ≥ 1 in the UI, `ℕ` here). -/
structure ProjInput where
  base_salary : ℚ
  bonus_pct : ℚ
  bonus_tax : ℚ
  raise_pct : ℚ
  monthly_investment : ℚ
  growth_rate : ℚ
  years : ℕ
  deriving DecidableEq, Repr

/-- Python's `round(x, 2)`.  Ties are broken upward here; Python breaks
float ties to even, but no verified statement below hits a tie. -/
def round2 (x : ℚ) : ℚ := ((⌊x * 100 + 1 / 2⌋ : ℤ) : ℚ) / 100

/-- One record appended per loop iteration in `update_projection`
(the columns of the year-by-year table, rounded to 2 decimals as in the
source's `round(_, 2)` calls). -/
structure ProjRow where
  year : ℕ
  base_salary : ℚ
  monthly_investment : ℚ
  annual_contribution : ℚ
  after_tax_bonus : ℚ
  total_invested : ℚ
  portfolio_value : ℚ
  deriving DecidableEq, Repr

/-- State of the loop in `update_projection` after `n` iterations:
`(salary, monthly_investment, portfolio_value)`.  The loop body first
computes the year's contribution and portfolio value from the incoming
`salary` and `monthly_investment`, then escalates
`salary *= (1 + raise_pct)` and
`monthly_investment += (base_salary * raise_pct) / 12`
(the increment uses the original `base_salary` input). -/
def projState (inp : ProjInput) : ℕ → ℚ × ℚ × ℚ
  | 0 => (inp.base_salary, inp.monthly_investment, 0)
  | n + 1 =>
    let s := projState inp n
    (s.1 * (1 + inp.raise_pct),
     s.2.1 + inp.base_salary * inp.raise_pct / 12,
     (s.2.2 + (s.2.1 * 12 + s.1 * inp.bonus_pct * (1 - inp.bonus_tax))) *
       (1 + inp.growth_rate))

/-- The record appended for `year = n + 1` (0-based `n`): computed from the
salary and monthly investment entering that year and the portfolio value
after that year's growth. -/
def projRow (inp : ProjInput) (n : ℕ) : ProjRow :=
  let s := projState inp n
  let annual_contribution := s.2.1 * 12
  let after_tax_bonus := s.1 * inp.bonus_pct * (1 - inp.bonus_tax)
  let total_invested := annual_contribution + after_tax_bonus
  { year := n + 1
    base_salary := round2 s.1
    monthly_investment := round2 s.2.1
    annual_contribution := round2 annual_contribution
    after_tax_bonus := round2 after_tax_bonus
    total_invested := round2 total_invested
    portfolio_value := round2 (projState inp (n + 1)).2.2 }

/-- The list of records built by the `for year in range(1, years + 1)` loop
of `update_projection`. -/
def update_projection (inp : ProjInput) : List ProjRow :=
  (List.range inp.years).map (projRow inp)

/-! ## vibes_dashboard.py : data model of the provider inputs -/

/-- One row of the 6-month price history DataFrame fetched by
`stock.history(period="6mo")`: the columns used by `calculate_vibes`
plus the row's index date (rendered as a string, as `str(result["date"])`
does in `update_dashboard`). -/
structure PriceBar where
  date : String
  high : ℚ
  low : ℚ
  close : ℚ
  volume : ℚ
  deriving DecidableEq, Repr

/-- Outcome of the apewisdom.io fetch in `get_sentiment_scores`:
the request/parse can raise (`fail`), succeed without a `Mentions` cell
(`noMentions`), or yield a parsed mentions count. -/
inductive RedditFetch where
  | fail : RedditFetch
  | noMentions : RedditFetch
  | mentions : ℕ → RedditFetch
  deriving DecidableEq, Repr

/-- Outcome of the finviz news fetch in `get_sentiment_scores`: the
request/parse can raise (`fail`), succeed without a news table
(`noTable`), or yield the list of headline texts. -/
inductive FinvizNews where
  | fail : FinvizNews
  | noTable : FinvizNews
  | table : List String → FinvizNews
  deriving DecidableEq, Repr

/-- Everything the external world hands `calculate_vibes` for one call:
the price history, the option chain (`some ivs` = fetch succeeded with
the concatenated non-null implied volatilities of calls and puts, `none`
= `stock.option_chain()` raised), the earnings calendar (`some d` =
a valid earnings date `d` days from `today` was found, `none` = fetch
failed or no valid date), the finviz breadth count (`none` = fetch or
parse failed), and the two sentiment sources. -/
structure VibesEnv where
  hist : List PriceBar
  optionChain : Option (List ℚ)
  calendarDays : Option ℤ
  breadthCount : Option ℤ
  reddit : RedditFetch
  finviz : FinvizNews
  deriving DecidableEq, Repr

/-! ## vibes_dashboard.py : the five factors -/

/-- The pandas mean of a list of (non-null) values. -/
def listMean (l : List ℚ) : ℚ := l.sum / (l.length : ℚ)

/-- Python `l[-n:]`: the last `n` elements (all of them when the list is
shorter). -/
def lastN (n : ℕ) (l : List ℚ) : List ℚ := l.drop (l.length - n)

/-- The Volume factor:
`avg_vol = hist['Volume'][-20:].mean()`,
`vol_score = hist['Volume'][-1] / avg_vol if avg_vol else 0`,
`vol_factor = min(vol_score / 2, 1.0)`. -/
def volFactor (hist : List PriceBar) : ℚ :=
  let vols := hist.map (fun b => b.volume)
  let avg_vol := listMean (lastN 20 vols)
  let vol_score := if avg_vol = 0 then 0 else (vols.getLast?.getD 0) / avg_vol
  min (vol_score / 2) 1

/-- The series `(hist['High'] - hist['Low']) / hist['Close']`, rowwise. -/
def hlRange (hist : List PriceBar) : List ℚ :=
  hist.map (fun b => (b.high - b.low) / b.close)

/-- Pandas `s.rolling(5).mean().iloc[-1]`: the mean of the last 5 entries, NaN
(modelled `none`) when the series has fewer than 5 entries. -/
def rollingMeanLast5 (l : List ℚ) : Option ℚ :=
  if 5 ≤ l.length then some ((lastN 5 l).sum / 5) else none

/-- The `iv_score`: mean of the option-chain implied volatilities × 100 when
the chain was fetched and non-empty; otherwise (fetch raised, or the mean
of an empty series is NaN and the code re-raises) the historical fallback
`hl_range.rolling(5).mean().iloc[-1] * 100`, which is NaN (`none`) when
the history has fewer than 5 rows. -/
def ivScoreOf (env : VibesEnv) : Option ℚ :=
  match env.optionChain with
  | some ivs =>
    if ivs.length ≠ 0 then some (listMean ivs * 100)
    else (rollingMeanLast5 (hlRange env.hist)).map (fun x => x * 100)
  | none => (rollingMeanLast5 (hlRange env.hist)).map (fun x => x * 100)

/-- The clamp `iv_factor = min(iv_score / 5, 1.0)`; NaN propagates through
`min` (Python's `min` keeps the NaN first argument). -/
def ivFactor (env : VibesEnv) : Option ℚ :=
  (ivScoreOf env).map (fun s => min (s / 5) 1)

/-- The Earnings factor: `0.5` unless a valid earnings date was found, in
which case `max(0, 10 - abs(days_to_earnings)) / 10`. -/
def earningsFactor (cal : Option ℤ) : ℚ :=
  match cal with
  | some days => ((max 0 (10 - |days|) : ℤ) : ℚ) / 10
  | none => 1 / 2

/-- The function `get_breadth_factor`: `count / 500` clamped by
`min(max(breadth_pct, 0), 1.0)`; any failure returns `0.5`. -/
def breadthFactor (b : Option ℤ) : ℚ :=
  match b with
  | some count => min (max ((count : ℚ) / 500) 0) 1
  | none => 1 / 2

/-- Python's substring test `needle in hay` on character lists. -/
def containsSub (hay needle : List Char) : Bool :=
  match hay with
  | [] => needle.isEmpty
  | _ :: t => needle.isPrefixOf hay || containsSub t needle

/-- The test `"upgrade" in h.lower() or "beats" in h.lower()`. -/
def headlinePos (h : String) : Bool :=
  containsSub h.toLower.data "upgrade".data || containsSub h.toLower.data "beats".data

/-- The test `"downgrade" in h.lower() or "misses" in h.lower()`. -/
def headlineNeg (h : String) : Bool :=
  containsSub h.toLower.data "downgrade".data || containsSub h.toLower.data "misses".data

/-- The reddit half of `get_sentiment_scores`:
`min(1.0, mentions / 1000)` when a mentions cell parses, `0.5` when the
cell is absent or anything raises. -/
def redditScore : RedditFetch → ℚ
  | .fail => 1 / 2
  | .noMentions => 1 / 2
  | .mentions n => min 1 ((n : ℚ) / 1000)

/-- The finviz half of `get_sentiment_scores`: starts at `0.5`; when a
news table is present it becomes `pos / (pos + neg + 1)` counting
headline keyword hits; any exception leaves `0.5`. -/
def finvizScore : FinvizNews → ℚ
  | .fail => 1 / 2
  | .noTable => 1 / 2
  | .table hs =>
    let pos := hs.countP headlinePos
    let neg := hs.countP headlineNeg
    (pos : ℚ) / ((pos : ℚ) + (neg : ℚ) + 1)

/-- The average `sentiment_factor = (reddit_score + finviz_score) / 2`. -/
def sentimentFactor (r : RedditFetch) (f : FinvizNews) : ℚ :=
  (redditScore r + finvizScore f) / 2

/-! ## vibes_dashboard.py : calculate_vibes and update_dashboard -/

/-- Python's `ticker.upper()`. -/
def upperStr (s : String) : String := ⟨s.data.map Char.toUpper⟩

/-- The signal `"🚀 Bullish" if vibes > 0.65 else "😐 Neutral" if vibes > 0.4 else
"🔻 Bearish"`.  A NaN score (`none`) compares false on both tests, so it
falls through to `"🔻 Bearish"`. -/
def signalOf (v : Option ℚ) : String :=
  match v with
  | some x =>
    if x > 0.65 then "🚀 Bullish" else if x > 0.4 then "😐 Neutral" else "🔻 Bearish"
  | none => "🔻 Bearish"

/-- The dictionary returned by a successful `calculate_vibes` call: the
upper-cased ticker, the date of the last history row, the five factors of
the `factors` dict (Volatility may be NaN), the composite score and the
signal string. -/
structure VibesResult where
  ticker : String
  date : String
  volumeF : ℚ
  volatilityF : Option ℚ
  earningsF : ℚ
  breadthF : ℚ
  sentimentF : ℚ
  vibes_score : Option ℚ
  signal : String
  deriving DecidableEq, Repr

/-- The scorer `calculate_vibes(ticker)`: returns the error string
`"No historical data found"` when the fetched history is empty, and
otherwise the complete result with
`vibes = (vol + iv + earnings + breadth + sentiment) / 5` (NaN
propagating from the Volatility factor). -/
def calculate_vibes (ticker : String) (env : VibesEnv) : Except String VibesResult :=
  if env.hist = [] then Except.error "No historical data found"
  else
    let vol_factor := volFactor env.hist
    let iv_factor := ivFactor env
    let earnings_factor := earningsFactor env.calendarDays
    let breadth_factor := breadthFactor env.breadthCount
    let sentiment_factor := sentimentFactor env.reddit env.finviz
    let vibes := iv_factor.map (fun iv =>
      (vol_factor + iv + earnings_factor + breadth_factor + sentiment_factor) / 5)
    Except.ok
      { ticker := upperStr ticker
        date := ((env.hist.getLast?).map (fun b => b.date)).getD ""
        volumeF := vol_factor
        volatilityF := iv_factor
        earningsF := earnings_factor
        breadthF := breadth_factor
        sentimentF := sentiment_factor
        vibes_score := vibes
        signal := signalOf vibes }

/-- The `vibes_history_data` dict: ticker ↦ list of `(date, score)` pairs;
absent keys read as the empty list (the code inserts `[]` before the first
append). -/
def Store : Type := String → List (String × Option ℚ)

/-- The two `dcc.Graph` figures produced by `update_dashboard`: the empty
`go.Figure()` on error, the factor bar chart, or the history line chart. -/
inductive Fig where
  | empty : Fig
  | bar : List String → List (Option ℚ) → Fig
  | line : List (String × Option ℚ) → Fig
  deriving DecidableEq, Repr

/-- The `output` child of `update_dashboard`: the bare error string, or
the score/signal paragraph with the factor list. -/
inductive DashChildren where
  | err : String → DashChildren
  | view : Option ℚ → String → List (String × Option ℚ) → DashChildren
  deriving DecidableEq, Repr

/-- The `update_dashboard` callback as a function of the history store:
on error it returns the error text and two empty figures and leaves the
store untouched; on success it appends `(date, score)` to the history of
the result's (upper-cased) ticker and builds the factor bar chart and the
history trend chart from the updated store. -/
def update_dashboard (ticker : String) (env : VibesEnv) (store : Store) :
    (DashChildren × Fig × Fig) × Store :=
  match calculate_vibes ticker env with
  | Except.error e => ((DashChildren.err e, Fig.empty, Fig.empty), store)
  | Except.ok r =>
    let key := r.ticker
    let store2 : Store := fun k =>
      if k = key then store k ++ [(r.date, r.vibes_score)] else store k
    let factors : List (String × Option ℚ) :=
      [("Volume", some r.volumeF), ("Volatility", r.volatilityF),
       ("Earnings", some r.earningsF), ("Breadth", some r.breadthF),
       ("Sentiment", some r.sentimentF)]
    ((DashChildren.view r.vibes_score r.signal factors,
      Fig.bar (factors.map Prod.fst) (factors.map Prod.snd),
      Fig.line (store2 key)), store2)

/-! ## Example inputs (used by witnesses and counterexamples) -/

/-- The documented preconditions on the projection inputs: non-negative
salary, monthly investment, growth and raise rates, and bonus percentage
and tax rate in `[0,1]`. -/
def ProjInput.Sane (inp : ProjInput) : Prop :=
  0 ≤ inp.growth_rate ∧ 0 ≤ inp.raise_pct ∧ 0 ≤ inp.base_salary ∧
  0 ≤ inp.bonus_pct ∧ inp.bonus_pct ≤ 1 ∧ 0 ≤ inp.bonus_tax ∧
  inp.bonus_tax ≤ 1 ∧ 0 ≤ inp.monthly_investment

/-- The UI default inputs with `years = 1` (the worked example of the
spec). -/
def exInput : ProjInput :=
  { base_salary := 250000, bonus_pct := 0.40, bonus_tax := 0.35,
    raise_pct := 0.04, monthly_investment := 2000, growth_rate := 0.15,
    years := 1 }

/-- The UI default inputs over a three-year horizon. -/
def exInput3 : ProjInput :=
  { base_salary := 250000, bonus_pct := 0.40, bonus_tax := 0.35,
    raise_pct := 0.04, monthly_investment := 2000, growth_rate := 0.15,
    years := 3 }

/-- A flat 10-dollar price bar with the given volume. -/
def flatBar (d : String) (v : ℚ) : PriceBar :=
  { date := d, high := 10, low := 10, close := 10, volume := v }

/-- One-bar history, option chain fetched with a single implied
volatility of `-1` (an extreme, negative provider input); every other
provider fails. -/
def envNegIV : VibesEnv :=
  { hist := [{ date := "2025-01-02", high := 10, low := 9, close := 10, volume := 100 }]
    optionChain := some [-1]
    calendarDays := none
    breadthCount := none
    reddit := RedditFetch.fail
    finviz := FinvizNews.fail }

/-- All five providers fail; the history is five flat bars with ordinary
(nonzero) volume. -/
def envAllFailVol : VibesEnv :=
  { hist := [flatBar "d1" 100, flatBar "d2" 100, flatBar "d3" 100,
             flatBar "d4" 100, flatBar "d5" 100]
    optionChain := none
    calendarDays := none
    breadthCount := none
    reddit := RedditFetch.fail
    finviz := FinvizNews.fail }

/-- All five providers fail; the history is five flat bars with zero
volume (the fully degraded scenario). -/
def envAllFailZero : VibesEnv :=
  { hist := [flatBar "d1" 0, flatBar "d2" 0, flatBar "d3" 0,
             flatBar "d4" 0, flatBar "d5" 0]
    optionChain := none
    calendarDays := none
    breadthCount := none
    reddit := RedditFetch.fail
    finviz := FinvizNews.fail }

/-- An environment with no price history at all. -/
def envNoData : VibesEnv :=
  { hist := [], optionChain := none, calendarDays := none,
    breadthCount := none, reddit := RedditFetch.fail, finviz := FinvizNews.fail }

/-- A history store that already holds one entry for `"NVDA"`. -/
def exStore : Store :=
  fun k => if k = "NVDA" then [("2025-01-01", some (1 / 2))] else []

/-- The composite score of a successful call, spelled out:
`(vol + iv + earnings + breadth + sentiment) / 5` under NaN
propagation. -/
def vibesScoreOf (env : VibesEnv) : Option ℚ :=
  (ivFactor env).map (fun iv =>
    (volFactor env.hist + iv + earningsFactor env.calendarDays +
      breadthFactor env.breadthCount + sentimentFactor env.reddit env.finviz) / 5)

/-- The result record of a successful `calculate_vibes` call, spelled
out field by field (definitionally equal to the record built inside
`calculate_vibes`). -/
def vibesResultOf (t : String) (env : VibesEnv) : VibesResult :=
  { ticker := upperStr t
    date := ((env.hist.getLast?).map (fun b => b.date)).getD ""
    volumeF := volFactor env.hist
    volatilityF := ivFactor env
    earningsF := earningsFactor env.calendarDays
    breadthF := breadthFactor env.breadthCount
    sentimentF := sentimentFactor env.reddit env.finviz
    vibes_score := vibesScoreOf env
    signal := signalOf (vibesScoreOf env) }

/-! ## Lemmas about the projection loop -/

lemma projState_succ_salary (inp : ProjInput) (n : ℕ) :
    (projState inp (n + 1)).1 = (projState inp n).1 * (1 + inp.raise_pct) := rfl

lemma projState_succ_mi (inp : ProjInput) (n : ℕ) :
    (projState inp (n + 1)).2.1 =
      (projState inp n).2.1 + inp.base_salary * inp.raise_pct / 12 := rfl

lemma projState_succ_pv (inp : ProjInput) (n : ℕ) :
    (projState inp (n + 1)).2.2 =
      ((projState inp n).2.2 +
        ((projState inp n).2.1 * 12 +
          (projState inp n).1 * inp.bonus_pct * (1 - inp.bonus_tax))) *
        (1 + inp.growth_rate) := rfl

lemma projRow_pv (inp : ProjInput) (n : ℕ) :
    (projRow inp n).portfolio_value = round2 (projState inp (n + 1)).2.2 := rfl

lemma projRow_mi (inp : ProjInput) (n : ℕ) :
    (projRow inp n).monthly_investment = round2 (projState inp n).2.1 := rfl

lemma round2_mono {x y : ℚ} (h : x ≤ y) : round2 x ≤ round2 y := by
  unfold round2
  have hf : ⌊x * 100 + 1 / 2⌋ ≤ ⌊y * 100 + 1 / 2⌋ := Int.floor_mono (by linarith)
  have hc : ((⌊x * 100 + 1 / 2⌋ : ℤ) : ℚ) ≤ ((⌊y * 100 + 1 / 2⌋ : ℤ) : ℚ) :=
    Int.cast_le.mpr hf
  linarith

lemma projState_nonneg (inp : ProjInput) (h : inp.Sane) (n : ℕ) :
    0 ≤ (projState inp n).1 ∧ 0 ≤ (projState inp n).2.1 ∧ 0 ≤ (projState inp n).2.2 := by
  obtain ⟨hg, hr, hb, hbp, hbp1, hbt, hbt1, hmi⟩ := h
  induction n with
  | zero => exact ⟨hb, hmi, le_refl 0⟩
  | succ n ih =>
    obtain ⟨hs, hm, hp⟩ := ih
    refine ⟨?_, ?_, ?_⟩
    · rw [projState_succ_salary]
      exact mul_nonneg hs (by linarith)
    · rw [projState_succ_mi]
      have hx : 0 ≤ inp.base_salary * inp.raise_pct / 12 :=
        div_nonneg (mul_nonneg hb hr) (by norm_num)
      linarith
    · rw [projState_succ_pv]
      have h2 : 0 ≤ (projState inp n).1 * inp.bonus_pct * (1 - inp.bonus_tax) :=
        mul_nonneg (mul_nonneg hs hbp) (by linarith)
      exact mul_nonneg (by linarith) (by linarith)

lemma projState_pv_le_succ (inp : ProjInput) (h : inp.Sane) (n : ℕ) :
    (projState inp n).2.2 ≤ (projState inp (n + 1)).2.2 := by
  obtain ⟨hs, hm, hp⟩ := projState_nonneg inp h n
  obtain ⟨hg, hr, hb, hbp, hbp1, hbt, hbt1, hmi⟩ := h
  rw [projState_succ_pv]
  have h2 : 0 ≤ (projState inp n).1 * inp.bonus_pct * (1 - inp.bonus_tax) :=
    mul_nonneg (mul_nonneg hs hbp) (by linarith)
  nlinarith [mul_nonneg (by linarith :
      (0 : ℚ) ≤ (projState inp n).2.2 +
        ((projState inp n).2.1 * 12 +
          (projState inp n).1 * inp.bonus_pct * (1 - inp.bonus_tax))) hg]

lemma projState_mi_closed (inp : ProjInput) (n : ℕ) :
    (projState inp n).2.1 =
      inp.monthly_investment + (n : ℚ) * (inp.base_salary * inp.raise_pct) / 12 := by
  induction n with
  | zero => simp [projState]
  | succ n ih =>
    rw [projState_succ_mi, ih]
    push_cast
    ring

/-- C6: for every input with `years = 1`, the single emitted row's
`portfolio_value` is
`(0 + monthly_investment*12 + base_salary*bonus_pct*(1-bonus_tax)) * (1+growth_rate)`
(rounded to 2 decimals as the table does); at the worked example
(`base_salary=250000, bonus_pct=0.40, bonus_tax=0.35, raise_pct=0.04,
monthly_investment=2000, growth_rate=0.15, years=1`) the row reads
`annual_contribution=24000`, `after_tax_bonus=65000`,
`total_invested=89000`, `portfolio_value=102350`. -/
theorem projection_year1_value :
    (∀ inp : ProjInput, inp.years = 1 →
      (update_projection inp).map (fun r => r.portfolio_value) =
        [round2 ((0 + inp.monthly_investment * 12 +
            inp.base_salary * inp.bonus_pct * (1 - inp.bonus_tax)) *
          (1 + inp.growth_rate))]) ∧
    update_projection exInput =
      [{ year := 1, base_salary := 250000, monthly_investment := 2000,
         annual_contribution := 24000, after_tax_bonus := 65000,
         total_invested := 89000, portfolio_value := 102350 }] := by
  constructor
  · intro inp h
    have hr : List.range inp.years = [0] := by rw [h]; simp [List.range_succ]
    have h0 : projState inp 0 = (inp.base_salary, inp.monthly_investment, 0) := rfl
    simp only [update_projection, hr, List.map_cons, List.map_nil, projRow_pv,
      projState_succ_pv, h0]
    exact congrArg (fun x => [round2 x]) (by ring)
  · with_unfolding_all rfl

/-- C6 witness: the general part of `projection_year1_value` instantiated
at the worked example input. -/
theorem projection_year1_value_witness :
    (update_projection exInput).map (fun r => r.portfolio_value) =
      [round2 ((0 + exInput.monthly_investment * 12 +
          exInput.base_salary * exInput.bonus_pct * (1 - exInput.bonus_tax)) *
        (1 + exInput.growth_rate))] :=
  projection_year1_value.1 exInput rfl

/-- C7: under the documented preconditions (non-negative growth and raise
rates, non-negative salary and monthly investment, bonus percentage and
tax rate in `[0,1]`), the emitted `portfolio_value` column is
non-decreasing from each year to the next. -/
theorem projection_value_monotone (inp : ProjInput) (h : inp.Sane) :
    List.Chain' (· ≤ ·) ((update_projection inp).map (fun r => r.portfolio_value)) := by
  rw [List.chain'_iff_get]
  intro i hi
  simp only [update_projection, List.length_map, List.length_range] at hi
  simp only [update_projection, List.get_eq_getElem, List.getElem_map, List.getElem_range,
    projRow_pv]
  exact round2_mono (projState_pv_le_succ inp h (i + 1))

/-- C7 witness: the monotonicity theorem at the three-year default
input. -/
theorem projection_value_monotone_witness :
    List.Chain' (· ≤ ·) ((update_projection exInput3).map (fun r => r.portfolio_value)) :=
  projection_value_monotone exInput3 (by constructor <;> norm_num [exInput3])

/-- C8: the monthly investment carried into each next year is the current
one plus `base_salary * raise_pct / 12` computed from the original
`base_salary` input, so the year-`n` row's monthly investment equals
`monthly_investment + (n-1) * base_salary * raise_pct / 12` for every
`1 ≤ n ≤ years`. -/
theorem projection_monthly_investment_escalation :
    (∀ (inp : ProjInput) (n : ℕ),
      (projState inp (n + 1)).2.1 =
        (projState inp n).2.1 + inp.base_salary * inp.raise_pct / 12) ∧
    (∀ (inp : ProjInput) (n : ℕ), 1 ≤ n → n ≤ inp.years →
      (update_projection inp)[n - 1]? = some (projRow inp (n - 1)) ∧
      (projRow inp (n - 1)).monthly_investment =
        round2 (inp.monthly_investment +
          ((n : ℚ) - 1) * inp.base_salary * inp.raise_pct / 12)) := by
  constructor
  · intro inp n
    exact projState_succ_mi inp n
  · intro inp n h1 h2
    have hlt : n - 1 < inp.years := by omega
    constructor
    · simp [update_projection, List.getElem?_map, List.getElem?_range, hlt]
    · rw [projRow_mi, projState_mi_closed]
      have hcast : ((n - 1 : ℕ) : ℚ) = (n : ℚ) - 1 := by
        have := Nat.cast_sub (R := ℚ) h1
        simpa using this
      rw [hcast]
      congr 1
      ring

/-- C8 witness: the escalation rule instantiated at the three-year
default input, year 2. -/
theorem projection_monthly_investment_escalation_witness :
    (update_projection exInput3)[2 - 1]? = some (projRow exInput3 (2 - 1)) ∧
    (projRow exInput3 (2 - 1)).monthly_investment =
      round2 (exInput3.monthly_investment +
        ((2 : ℚ) - 1) * exInput3.base_salary * exInput3.raise_pct / 12) :=
  projection_monthly_investment_escalation.2 exInput3 2 (by norm_num) (by norm_num [exInput3])

/-! ## Lemmas about calculate_vibes -/

lemma calculate_vibes_eq (t : String) (env : VibesEnv) :
    calculate_vibes t env =
      if env.hist = [] then Except.error "No historical data found"
      else Except.ok (vibesResultOf t env) := rfl

lemma calculate_vibes_ok_inv {t : String} {env : VibesEnv} {r : VibesResult}
    (h : calculate_vibes t env = Except.ok r) :
    env.hist ≠ [] ∧ r = vibesResultOf t env := by
  rw [calculate_vibes_eq] at h
  by_cases hc : env.hist = []
  · rw [if_pos hc] at h
    exact absurd h (by simp)
  · rw [if_neg hc] at h
    injection h with h2
    exact ⟨hc, h2.symm⟩

/-- C2: every successful call's `vibes_score` is exactly the arithmetic
mean of the five factor values of the same result (with the float-NaN
Volatility case propagating into the score, as `(a+NaN)/5` is NaN). -/
theorem vibes_score_is_mean :
    ∀ (t : String) (env : VibesEnv) (r : VibesResult),
      calculate_vibes t env = Except.ok r →
      r.vibes_score = r.volatilityF.map (fun iv =>
        (r.volumeF + iv + r.earningsF + r.breadthF + r.sentimentF) / 5) := by
  intro t env r h
  obtain ⟨-, rfl⟩ := calculate_vibes_ok_inv h
  rfl

/-- C2 witness: the mean property at a concrete successful call. -/
theorem vibes_score_is_mean_witness :
    (vibesResultOf "aapl" envAllFailVol).vibes_score =
      (vibesResultOf "aapl" envAllFailVol).volatilityF.map (fun iv =>
        ((vibesResultOf "aapl" envAllFailVol).volumeF + iv +
          (vibesResultOf "aapl" envAllFailVol).earningsF +
          (vibesResultOf "aapl" envAllFailVol).breadthF +
          (vibesResultOf "aapl" envAllFailVol).sentimentF) / 5) :=
  vibes_score_is_mean "aapl" envAllFailVol (vibesResultOf "aapl" envAllFailVol) rfl

/-- C4: a successful result's signal is derived from its score by the
fixed thresholds `score > 0.65 → Bullish`, `0.4 < score ≤ 0.65 →
Neutral`, `score ≤ 0.4 → Bearish`; in particular `0.65 → Neutral`,
`0.6501 → Bullish`, `0.4 → Bearish`, `0.4001 → Neutral`. -/
theorem vibes_signal_thresholds :
    (∀ (t : String) (env : VibesEnv) (r : VibesResult),
        calculate_vibes t env = Except.ok r → r.signal = signalOf r.vibes_score) ∧
    (∀ v : ℚ,
        (v > 0.65 → signalOf (some v) = "🚀 Bullish") ∧
        (0.4 < v ∧ v ≤ 0.65 → signalOf (some v) = "😐 Neutral") ∧
        (v ≤ 0.4 → signalOf (some v) = "🔻 Bearish")) ∧
    signalOf (some 0.65) = "😐 Neutral" ∧
    signalOf (some 0.6501) = "🚀 Bullish" ∧
    signalOf (some 0.4) = "🔻 Bearish" ∧
    signalOf (some 0.4001) = "😐 Neutral" := by
  refine ⟨?_, ?_, ?_, ?_, ?_, ?_⟩
  · intro t env r h
    obtain ⟨-, rfl⟩ := calculate_vibes_ok_inv h
    rfl
  · intro v
    refine ⟨?_, ?_, ?_⟩
    · intro h
      simp [signalOf, h]
    · intro h
      have h1 : ¬ v > 0.65 := by linarith [h.2]
      simp [signalOf, h1, h.1]
    · intro h
      have h1 : ¬ v > 0.65 := by norm_num; linarith
      have h2 : ¬ v > 0.4 := by norm_num; linarith
      simp [signalOf, h1, h2]
  · norm_num [signalOf]
  · norm_num [signalOf]
  · norm_num [signalOf]
  · norm_num [signalOf]

/-- C4 witness: the Bullish threshold applied at the concrete score
`0.7`. -/
theorem vibes_signal_thresholds_witness :
    signalOf (some 0.7) = "🚀 Bullish" :=
  (vibes_signal_thresholds.2.1 0.7).1 (by norm_num)

/-- C5: an empty price history is the only fatal condition — it yields
the explicit error `"No historical data found"`, which `update_dashboard`
reports with two empty figures and an untouched history store; every
environment with non-empty history produces a complete result. -/
theorem vibes_empty_history_only_fatal :
    ∀ (t : String) (env : VibesEnv) (store : Store),
      (env.hist = [] →
        calculate_vibes t env = Except.error "No historical data found" ∧
        update_dashboard t env store =
          ((DashChildren.err "No historical data found", Fig.empty, Fig.empty), store)) ∧
      (env.hist ≠ [] → calculate_vibes t env = Except.ok (vibesResultOf t env)) := by
  intro t env store
  constructor
  · intro h
    have hc : calculate_vibes t env = Except.error "No historical data found" := by
      rw [calculate_vibes_eq, if_pos h]
    refine ⟨hc, ?_⟩
    simp only [update_dashboard, hc]
  · intro h
    rw [calculate_vibes_eq, if_neg h]

/-- C5 witness: the error outcome at the empty environment and the
success outcome at a non-empty one. -/
theorem vibes_empty_history_only_fatal_witness :
    (calculate_vibes "NVDA" envNoData = Except.error "No historical data found" ∧
      update_dashboard "NVDA" envNoData exStore =
        ((DashChildren.err "No historical data found", Fig.empty, Fig.empty), exStore)) ∧
    calculate_vibes "nvda" envAllFailVol = Except.ok (vibesResultOf "nvda" envAllFailVol) :=
  ⟨(vibes_empty_history_only_fatal "NVDA" envNoData exStore).1 rfl,
   (vibes_empty_history_only_fatal "nvda" envAllFailVol exStore).2 (by simp [envAllFailVol])⟩

/-- C9: a successful call appends exactly one `(date, vibes_score)` pair
to the end of the result ticker's history and leaves every other
ticker's history unchanged; an erroring call leaves the whole store
unchanged. -/
theorem dashboard_history_append :
    ∀ (t : String) (env : VibesEnv) (store : Store),
      (∀ r : VibesResult, calculate_vibes t env = Except.ok r →
        (update_dashboard t env store).2 r.ticker =
          store r.ticker ++ [(r.date, r.vibes_score)] ∧
        ∀ k : String, k ≠ r.ticker → (update_dashboard t env store).2 k = store k) ∧
      (∀ e : String, calculate_vibes t env = Except.error e →
        (update_dashboard t env store).2 = store) := by
  intro t env store
  constructor
  · intro r h
    simp only [update_dashboard, h]
    constructor
    · simp
    · intro k hk
      simp [hk]
  · intro e h
    simp only [update_dashboard, h]

/-- C9 witness: the append at a concrete successful call on a store that
already holds an entry for another ticker. -/
theorem dashboard_history_append_witness :
    (update_dashboard "aapl" envAllFailVol exStore).2 (vibesResultOf "aapl" envAllFailVol).ticker =
      exStore (vibesResultOf "aapl" envAllFailVol).ticker ++
        [((vibesResultOf "aapl" envAllFailVol).date,
          (vibesResultOf "aapl" envAllFailVol).vibes_score)] ∧
    ∀ k : String, k ≠ (vibesResultOf "aapl" envAllFailVol).ticker →
      (update_dashboard "aapl" envAllFailVol exStore).2 k = exStore k :=
  (dashboard_history_append "aapl" envAllFailVol exStore).1
    (vibesResultOf "aapl" envAllFailVol) (by simp [calculate_vibes_eq, envAllFailVol])

/-- C10: the history key is the upper-cased ticker of the result, so two
input strings with the same upper-casing drive `update_dashboard`
identically (same history list appended, same outputs). -/
theorem dashboard_history_case_insensitive :
    (∀ (t : String) (env : VibesEnv) (r : VibesResult),
        calculate_vibes t env = Except.ok r → r.ticker = upperStr t) ∧
    (∀ (t1 t2 : String) (env : VibesEnv) (store : Store),
        upperStr t1 = upperStr t2 →
        update_dashboard t1 env store = update_dashboard t2 env store) := by
  constructor
  · intro t env r h
    obtain ⟨-, rfl⟩ := calculate_vibes_ok_inv h
    rfl
  · intro t1 t2 env store h
    have hc : calculate_vibes t1 env = calculate_vibes t2 env := by
      rw [calculate_vibes_eq, calculate_vibes_eq]
      simp only [vibesResultOf, h]
    simp only [update_dashboard, hc]

/-- C10 witness: `"nvda"` and `"NVDA"` drive the dashboard
identically. -/
theorem dashboard_history_case_insensitive_witness :
    update_dashboard "nvda" envAllFailVol exStore =
      update_dashboard "NVDA" envAllFailVol exStore :=
  dashboard_history_case_insensitive.2 "nvda" "NVDA" envAllFailVol exStore
    (by with_unfolding_all rfl)

/-! ## Range lemmas for the five factors -/

lemma earningsFactor_mem (c : Option ℤ) :
    0 ≤ earningsFactor c ∧ earningsFactor c ≤ 1 := by
  cases c with
  | none => norm_num [earningsFactor]
  | some d =>
    have h1 : (0 : ℤ) ≤ max 0 (10 - |d|) := le_max_left 0 _
    have h2 : max 0 (10 - |d|) ≤ 10 :=
      max_le (by norm_num) (by have := abs_nonneg d; omega)
    have h1q : (0 : ℚ) ≤ ((max 0 (10 - |d|) : ℤ) : ℚ) := by exact_mod_cast h1
    have h2q : ((max 0 (10 - |d|) : ℤ) : ℚ) ≤ 10 := by exact_mod_cast h2
    simp only [earningsFactor]
    constructor
    · exact div_nonneg h1q (by norm_num)
    · rw [div_le_one (by norm_num : (0 : ℚ) < 10)]
      exact h2q

lemma breadthFactor_mem (b : Option ℤ) :
    0 ≤ breadthFactor b ∧ breadthFactor b ≤ 1 := by
  cases b with
  | none => norm_num [breadthFactor]
  | some c =>
    simp only [breadthFactor]
    exact ⟨le_min (le_max_right _ 0) (by norm_num), min_le_right _ _⟩

lemma redditScore_mem (r : RedditFetch) :
    0 ≤ redditScore r ∧ redditScore r ≤ 1 := by
  cases r with
  | fail => norm_num [redditScore]
  | noMentions => norm_num [redditScore]
  | mentions n =>
    simp only [redditScore]
    exact ⟨le_min (by norm_num) (div_nonneg (Nat.cast_nonneg n) (by norm_num)),
      min_le_left _ _⟩

lemma finvizScore_mem (f : FinvizNews) :
    0 ≤ finvizScore f ∧ finvizScore f ≤ 1 := by
  cases f with
  | fail => norm_num [finvizScore]
  | noTable => norm_num [finvizScore]
  | table hs =>
    simp only [finvizScore]
    have hp : (0 : ℚ) ≤ (hs.countP headlinePos : ℚ) := Nat.cast_nonneg _
    have hn : (0 : ℚ) ≤ (hs.countP headlineNeg : ℚ) := Nat.cast_nonneg _
    constructor
    · exact div_nonneg hp (by linarith)
    · rw [div_le_one (by linarith)]
      linarith

lemma sentimentFactor_mem (r : RedditFetch) (f : FinvizNews) :
    0 ≤ sentimentFactor r f ∧ sentimentFactor r f ≤ 1 := by
  obtain ⟨h1, h2⟩ := redditScore_mem r
  obtain ⟨h3, h4⟩ := finvizScore_mem f
  unfold sentimentFactor
  constructor <;> linarith

lemma volFactor_le_one (hist : List PriceBar) : volFactor hist ≤ 1 :=
  min_le_right _ _

lemma getLastD_nonneg {l : List ℚ} (h : ∀ x ∈ l, 0 ≤ x) :
    0 ≤ l.getLast?.getD 0 := by
  cases l with
  | nil => simp
  | cons a t =>
    rw [List.getLast?_eq_getLast (a :: t) (by simp)]
    simp only [Option.getD_some]
    exact h _ (List.getLast_mem _)

lemma volFactor_nonneg (hist : List PriceBar) (h : ∀ b ∈ hist, 0 ≤ b.volume) :
    0 ≤ volFactor hist := by
  have hv : ∀ x ∈ hist.map (fun b => b.volume), 0 ≤ x := by
    intro x hx
    obtain ⟨b, hb, rfl⟩ := List.mem_map.mp hx
    exact h b hb
  have hlast : ∀ x ∈ lastN 20 (hist.map (fun b => b.volume)), 0 ≤ x :=
    fun x hx => hv x (List.drop_subset _ _ hx)
  have havg : 0 ≤ listMean (lastN 20 (hist.map (fun b => b.volume))) :=
    div_nonneg (List.sum_nonneg hlast) (Nat.cast_nonneg _)
  simp only [volFactor]
  by_cases hz : listMean (lastN 20 (hist.map (fun b => b.volume))) = 0
  · rw [if_pos hz]
    norm_num
  · rw [if_neg hz]
    refine le_min (div_nonneg (div_nonneg ?_ havg) (by norm_num)) (by norm_num)
    exact getLastD_nonneg hv

lemma ivFactor_le_one (env : VibesEnv) {v : ℚ} (h : ivFactor env = some v) :
    v ≤ 1 := by
  cases hs : ivScoreOf env with
  | none => rw [ivFactor, hs] at h; simp at h
  | some s =>
    rw [ivFactor, hs] at h
    simp only [Option.map_some'] at h
    injection h with h2
    rw [← h2]
    exact min_le_right _ _

lemma rollingMeanLast5_nonneg {l : List ℚ} (h : ∀ x ∈ l, 0 ≤ x) {m : ℚ}
    (hm : rollingMeanLast5 l = some m) : 0 ≤ m := by
  rw [rollingMeanLast5] at hm
  by_cases hl : 5 ≤ l.length
  · rw [if_pos hl] at hm
    injection hm with h2
    rw [← h2]
    exact div_nonneg
      (List.sum_nonneg (fun x hx => h x (List.drop_subset _ _ hx))) (by norm_num)
  · rw [if_neg hl] at hm
    exact absurd hm (by simp)

lemma hlRange_nonneg (hist : List PriceBar)
    (hbars : ∀ b ∈ hist, b.low ≤ b.high ∧ 0 < b.close) :
    ∀ x ∈ hlRange hist, 0 ≤ x := by
  intro x hx
  obtain ⟨b, hb, rfl⟩ := List.mem_map.mp hx
  obtain ⟨h1, h2⟩ := hbars b hb
  exact div_nonneg (by linarith) (le_of_lt h2)

lemma ivFactor_nonneg (env : VibesEnv)
    (hchain : ∀ l, env.optionChain = some l → ∀ x ∈ l, 0 ≤ x)
    (hbars : ∀ b ∈ env.hist, b.low ≤ b.high ∧ 0 < b.close)
    {v : ℚ} (h : ivFactor env = some v) : 0 ≤ v := by
  have hscore : ∀ s, ivScoreOf env = some s → 0 ≤ s := by
    intro s hs
    rw [ivScoreOf] at hs
    cases hoc : env.optionChain with
    | some ivs =>
      simp only [hoc] at hs
      by_cases hne : ivs.length ≠ 0
      · rw [if_pos hne] at hs
        injection hs with h2
        rw [← h2]
        have : 0 ≤ listMean ivs :=
          div_nonneg (List.sum_nonneg (hchain ivs hoc)) (Nat.cast_nonneg _)
        positivity
      · rw [if_neg hne] at hs
        cases hr : rollingMeanLast5 (hlRange env.hist) with
        | none => rw [hr] at hs; exact absurd hs (by simp)
        | some m =>
          rw [hr] at hs
          simp only [Option.map_some'] at hs
          injection hs with h2
          rw [← h2]
          have := rollingMeanLast5_nonneg (hlRange_nonneg env.hist hbars) hr
          positivity
    | none =>
      simp only [hoc] at hs
      cases hr : rollingMeanLast5 (hlRange env.hist) with
      | none => rw [hr] at hs; exact absurd hs (by simp)
      | some m =>
        rw [hr] at hs
        simp only [Option.map_some'] at hs
        injection hs with h2
        rw [← h2]
        have := rollingMeanLast5_nonneg (hlRange_nonneg env.hist hbars) hr
        positivity
  cases hs : ivScoreOf env with
  | none => rw [ivFactor, hs] at h; exact absurd h (by simp)
  | some s =>
    rw [ivFactor, hs] at h
    simp only [Option.map_some'] at h
    injection h with h2
    rw [← h2]
    exact le_min (div_nonneg (hscore s hs) (by norm_num)) (by norm_num)

/-- C1 counterexample: with a fetched option chain whose implied
volatility is the extreme input `-1`, the returned Volatility factor is
`min(-100/5, 1) = -20`, which lies outside `[0,1]` — the code clamps the
factors only from above, so out-of-range values are returned, not
clamped. -/
theorem vibes_negative_iv_not_clamped :
    calculate_vibes "AAPL" envNegIV = Except.ok
      { ticker := "AAPL", date := "2025-01-02", volumeF := 1 / 2,
        volatilityF := some (-20), earningsF := 1 / 2, breadthF := 1 / 2,
        sentimentF := 1 / 2, vibes_score := some (-18 / 5),
        signal := "🔻 Bearish" } ∧
    ¬ ((0 : ℚ) ≤ -20 ∧ (-20 : ℚ) ≤ 1) := by
  constructor
  · with_unfolding_all rfl
  · norm_num

/-- C1 (amended): on every successful call the Earnings, Breadth and
Sentiment factors always lie in `[0,1]`, and the Volume and Volatility
factors are clamped from above at 1; their lower bound 0 additionally
needs the provider inputs to be non-extreme (non-negative volumes for
Volume; non-negative implied volatilities and well-formed bars
`low ≤ high`, `close > 0` for Volatility) — negative provider inputs pass
through unclamped below. -/
theorem vibes_factors_clamped_amended :
    ∀ (t : String) (env : VibesEnv) (r : VibesResult),
      calculate_vibes t env = Except.ok r →
      (0 ≤ r.earningsF ∧ r.earningsF ≤ 1) ∧
      (0 ≤ r.breadthF ∧ r.breadthF ≤ 1) ∧
      (0 ≤ r.sentimentF ∧ r.sentimentF ≤ 1) ∧
      r.volumeF ≤ 1 ∧
      (∀ v, r.volatilityF = some v → v ≤ 1) ∧
      ((∀ b ∈ env.hist, 0 ≤ b.volume) → 0 ≤ r.volumeF) ∧
      ((∀ l, env.optionChain = some l → ∀ x ∈ l, 0 ≤ x) →
        (∀ b ∈ env.hist, b.low ≤ b.high ∧ 0 < b.close) →
        ∀ v, r.volatilityF = some v → 0 ≤ v) := by
  intro t env r h
  obtain ⟨-, rfl⟩ := calculate_vibes_ok_inv h
  refine ⟨earningsFactor_mem env.calendarDays,
    breadthFactor_mem env.breadthCount,
    sentimentFactor_mem env.reddit env.finviz,
    volFactor_le_one env.hist, ?_, ?_, ?_⟩
  · intro v hv
    exact ivFactor_le_one env hv
  · intro hvol
    exact volFactor_nonneg env.hist hvol
  · intro hchain hbars v hv
    exact ivFactor_nonneg env hchain hbars hv

/-- C1 witness: the amended range facts at a concrete successful call
with non-negative volumes and well-formed bars. -/
theorem vibes_factors_clamped_amended_witness :
    (0 ≤ (vibesResultOf "aapl" envAllFailVol).earningsF ∧
      (vibesResultOf "aapl" envAllFailVol).earningsF ≤ 1) ∧
    (0 ≤ (vibesResultOf "aapl" envAllFailVol).breadthF ∧
      (vibesResultOf "aapl" envAllFailVol).breadthF ≤ 1) ∧
    (0 ≤ (vibesResultOf "aapl" envAllFailVol).sentimentF ∧
      (vibesResultOf "aapl" envAllFailVol).sentimentF ≤ 1) ∧
    (vibesResultOf "aapl" envAllFailVol).volumeF ≤ 1 ∧
    (∀ v, (vibesResultOf "aapl" envAllFailVol).volatilityF = some v → v ≤ 1) ∧
    ((∀ b ∈ envAllFailVol.hist, 0 ≤ b.volume) →
      0 ≤ (vibesResultOf "aapl" envAllFailVol).volumeF) ∧
    ((∀ l, envAllFailVol.optionChain = some l → ∀ x ∈ l, 0 ≤ x) →
      (∀ b ∈ envAllFailVol.hist, b.low ≤ b.high ∧ 0 < b.close) →
      ∀ v, (vibesResultOf "aapl" envAllFailVol).volatilityF = some v → 0 ≤ v) :=
  vibes_factors_clamped_amended "aapl" envAllFailVol
    (vibesResultOf "aapl" envAllFailVol) rfl

/-- C3 counterexample: with all five providers failing and a minimal
(five flat bars, ordinary volume) price history, the result's factors are
`(0.5, 0, 0.5, 0.5, 0.5)` and `vibes_score = 0.4` — not the claimed fixed
fallbacks `(0, 0, 0.5, 0.5, 0.5)` with score `0.3`: after provider
failure the Volume and Volatility factors are still computed from the
price history. -/
theorem vibes_all_fail_not_fixed_fallbacks :
    calculate_vibes "aapl" envAllFailVol = Except.ok
      { ticker := "AAPL", date := "d5", volumeF := 1 / 2,
        volatilityF := some 0, earningsF := 1 / 2, breadthF := 1 / 2,
        sentimentF := 1 / 2, vibes_score := some (2 / 5),
        signal := "🔻 Bearish" } ∧
    (1 / 2 : ℚ) ≠ 0 ∧ (2 / 5 : ℚ) ≠ 3 / 10 := by
  refine ⟨?_, by norm_num, by norm_num⟩
  with_unfolding_all rfl

/-- C3 (amended): when all five providers fail and the price history is
degenerate enough to zero the price-derived factors — at least 5 bars,
all with zero volume and `high = low` (and nonzero close, so the float
division is defined) — the result is exactly the degraded one: factors
`(0, 0, 0.5, 0.5, 0.5)`, `vibes_score = 0.3`, signal Bearish. -/
theorem vibes_all_fail_degraded_result :
    ∀ (t : String) (env : VibesEnv),
      env.optionChain = none → env.calendarDays = none →
      env.breadthCount = none → env.reddit = RedditFetch.fail →
      env.finviz = FinvizNews.fail → 5 ≤ env.hist.length →
      (∀ b ∈ env.hist, b.volume = 0 ∧ b.high = b.low ∧ b.close ≠ 0) →
      ∃ r, calculate_vibes t env = Except.ok r ∧
        r.volumeF = 0 ∧ r.volatilityF = some 0 ∧ r.earningsF = 1 / 2 ∧
        r.breadthF = 1 / 2 ∧ r.sentimentF = 1 / 2 ∧
        r.vibes_score = some (3 / 10) ∧ r.signal = "🔻 Bearish" := by
  intro t env hoc hcal hbr hred hfin hlen hbars
  have hne : env.hist ≠ [] := by
    intro hh
    rw [hh] at hlen
    simp at hlen
  have hvol : volFactor env.hist = 0 := by
    have hz : ∀ x ∈ lastN 20 (env.hist.map (fun b => b.volume)), x = 0 := by
      intro x hx
      obtain ⟨b, hb, rfl⟩ :=
        List.mem_map.mp (List.drop_subset _ _ hx)
      exact (hbars b hb).1
    have hsum : (lastN 20 (env.hist.map (fun b => b.volume))).sum = 0 :=
      List.sum_eq_zero hz
    have havg : listMean (lastN 20 (env.hist.map (fun b => b.volume))) = 0 := by
      rw [listMean, hsum, zero_div]
    simp only [volFactor, havg, if_pos]
    norm_num
  have hhl : ∀ x ∈ hlRange env.hist, x = 0 := by
    intro x hx
    obtain ⟨b, hb, rfl⟩ := List.mem_map.mp hx
    rw [(hbars b hb).2.1]
    simp
  have hroll : rollingMeanLast5 (hlRange env.hist) = some 0 := by
    have hlen2 : 5 ≤ (hlRange env.hist).length := by
      rw [hlRange, List.length_map]
      exact hlen
    rw [rollingMeanLast5, if_pos hlen2]
    have : (lastN 5 (hlRange env.hist)).sum = 0 :=
      List.sum_eq_zero (fun x hx => hhl x (List.drop_subset _ _ hx))
    rw [this, zero_div]
  have hiv : ivFactor env = some 0 := by
    rw [ivFactor, ivScoreOf, hoc, hroll]
    simp only [Option.map_some']
    norm_num
  refine ⟨vibesResultOf t env, by rw [calculate_vibes_eq, if_neg hne], ?_⟩
  have hearn : earningsFactor env.calendarDays = 1 / 2 := by rw [hcal]; rfl
  have hbre : breadthFactor env.breadthCount = 1 / 2 := by rw [hbr]; rfl
  have hsent : sentimentFactor env.reddit env.finviz = 1 / 2 := by
    rw [hred, hfin, sentimentFactor]
    norm_num [redditScore, finvizScore]
  have hscore : vibesScoreOf env = some (3 / 10) := by
    rw [vibesScoreOf, hiv]
    simp only [Option.map_some']
    rw [hvol, hearn, hbre, hsent]
    norm_num
  refine ⟨hvol, hiv, hearn, hbre, hsent, hscore, ?_⟩
  show signalOf (vibesScoreOf env) = "🔻 Bearish"
  rw [hscore]
  norm_num [signalOf]

/-- C3 witness: the degraded result at the concrete all-fail environment
with five flat zero-volume bars. -/
theorem vibes_all_fail_degraded_result_witness :
    ∃ r, calculate_vibes "nvda" envAllFailZero = Except.ok r ∧
      r.volumeF = 0 ∧ r.volatilityF = some 0 ∧ r.earningsF = 1 / 2 ∧
      r.breadthF = 1 / 2 ∧ r.sentimentF = 1 / 2 ∧
      r.vibes_score = some (3 / 10) ∧ r.signal = "🔻 Bearish" :=
  vibes_all_fail_degraded_result "nvda" envAllFailZero rfl rfl rfl rfl rfl
    (by simp [envAllFailZero, flatBar])
    (by intro b hb
        simp only [envAllFailZero, flatBar, List.mem_cons, List.not_mem_nil,
          or_false] at hb
        rcases hb with rfl | rfl | rfl | rfl | rfl <;> norm_num)

end Finances
